import Mathlib

/-!
Verification of the ProjectReportCreator reporting pipeline.

The definitions below are a shallow embedding of `src/constants.py` and
`src/utilities/graph_utils.py`.  Python dictionaries become association
lists, pandas series become Lean lists (with `Option` marking NaN cells),
the process-wide numpy random source becomes an explicit stream argument,
and the pandas `DataFrame.pivot(...).fillna(0)` call becomes an explicit
`Option`-valued grid builder (`none` models the `ValueError` that pandas
raises when an (index, columns) pair repeats).  String ordering follows
Python/pandas: lexicographic comparison of Unicode code points.
-/

namespace ProjectReport

/-! ## Lexicographic string order (Python / pandas sort order) -/

/-- Lexicographic comparison of character lists by Unicode code point,
as Python compares `str` values. -/
def charsLe : List Char → List Char → Bool
  | [], _ => true
  | _ :: _, [] => false
  | c1 :: t1, c2 :: t2 =>
    if c1 = c2 then charsLe t1 t2 else decide (c1 < c2)

/-- Lexicographic order on strings, via their character data. -/
def strLe (a b : String) : Bool := charsLe a.data b.data

/-- `strLe` as a decidable relation, for use with `List.insertionSort`. -/
def strLeP : String → String → Prop := fun a b => strLe a b = true

instance : DecidableRel strLeP := fun a b =>
  inferInstanceAs (Decidable (strLe a b = true))

theorem charsLe_total (l1 l2 : List Char) :
    charsLe l1 l2 = true ∨ charsLe l2 l1 = true := by
  induction l1 generalizing l2 with
  | nil => left; rfl
  | cons c1 t1 ih =>
    cases l2 with
    | nil => right; rfl
    | cons c2 t2 =>
      by_cases h : c1 = c2
      · subst h
        simpa [charsLe] using ih t2
      · rcases lt_or_gt_of_ne h with hlt | hgt
        · left; simp [charsLe, h, hlt]
        · right; simp [charsLe, Ne.symm h, hgt]

theorem charsLe_trans {l1 l2 l3 : List Char} (h12 : charsLe l1 l2 = true)
    (h23 : charsLe l2 l3 = true) : charsLe l1 l3 = true := by
  induction l1 generalizing l2 l3 with
  | nil => rfl
  | cons c1 t1 ih =>
    cases l2 with
    | nil => simp [charsLe] at h12
    | cons c2 t2 =>
      cases l3 with
      | nil => simp [charsLe] at h23
      | cons c3 t3 =>
        by_cases h1 : c1 = c2 <;> by_cases h2 : c2 = c3
        · subst h1; subst h2
          simp only [charsLe, if_pos rfl] at h12 h23 ⊢
          exact ih h12 h23
        · subst h1
          simpa [charsLe, h2] using h23
        · subst h2
          simpa [charsLe, h1] using h12
        · simp only [charsLe, if_neg h1, decide_eq_true_eq] at h12
          simp only [charsLe, if_neg h2, decide_eq_true_eq] at h23
          have h13 : c1 < c3 := lt_trans h12 h23
          simp [charsLe, ne_of_lt h13, h13]

theorem charsLe_antisymm {l1 l2 : List Char} (h12 : charsLe l1 l2 = true)
    (h21 : charsLe l2 l1 = true) : l1 = l2 := by
  induction l1 generalizing l2 with
  | nil =>
    cases l2 with
    | nil => rfl
    | cons c2 t2 => simp [charsLe] at h21
  | cons c1 t1 ih =>
    cases l2 with
    | nil => simp [charsLe] at h12
    | cons c2 t2 =>
      by_cases h : c1 = c2
      · subst h
        simp only [charsLe, if_pos rfl] at h12 h21
        exact congrArg (c1 :: ·) (ih h12 h21)
      · simp only [charsLe, if_neg h, decide_eq_true_eq] at h12
        simp only [charsLe, if_neg (Ne.symm h), decide_eq_true_eq] at h21
        exact absurd h21 (lt_asymm h12)

instance : IsTotal String strLeP :=
  ⟨fun a b => charsLe_total a.data b.data⟩

instance : IsTrans String strLeP :=
  ⟨fun _ _ _ h1 h2 => charsLe_trans h1 h2⟩

instance : IsAntisymm String strLeP := by
  constructor
  intro a b h1 h2
  cases a with
  | mk da =>
    cases b with
    | mk db => exact congrArg String.mk (charsLe_antisymm h1 h2)

/-! ## constants.py -/

/-- Text representations for staging (`STAGING_TEXT_REPRESENTATION`). -/
def STAGING_TEXT_REPRESENTATION : List (String × String) :=
  [("Triage", "▰▱▱▱▱"),
   ("Analysis", "▰▰▱▱▱"),
   ("Alpha Test", "▰▰▰▱▱"),
   ("Beta Test", "▰▰▰▰▱"),
   ("Roll-out", "▰▰▰▰▰")]

/-- Text representations for priority (`PRIORITY_TEXT_REPRESENTATION`). -/
def PRIORITY_TEXT_REPRESENTATION : List (String × String) :=
  [("P1", "P1 🔥"),
   ("P2", "P2 🚨"),
   ("P3", "P3 ⭐"),
   ("P4", "P4 🐢"),
   ("P5", "P5 🐌")]

/-- Python `dict.get(key, fallback)` on an association list. -/
def dictGet (d : List (String × String)) (key fallback : String) : String :=
  match d.lookup key with
  | some v => v
  | none => fallback

/-- `get_staging_text` from constants.py. -/
def get_staging_text (staging : String) : String :=
  dictGet STAGING_TEXT_REPRESENTATION staging "-----"

/-- `get_priority_text` from constants.py. -/
def get_priority_text (priority : String) : String :=
  dictGet PRIORITY_TEXT_REPRESENTATION priority "unknown"

theorem lookup_eq_none_of_not_mem_keys {β : Type} (l : List (String × β))
    (s : String) (h : s ∉ l.map Prod.fst) : l.lookup s = none := by
  induction l with
  | nil => rfl
  | cons p t ih =>
    simp only [List.map_cons, List.mem_cons, not_or] at h
    have hne : (s == p.1) = false := beq_eq_false_iff_ne.mpr h.1
    cases p with
    | mk k v => simpa [List.lookup, hne] using ih h.2

/-- C2: looking up an unmapped label in the staging or priority text maps
returns the documented fixed default ("-----" respectively "unknown") and
never fails, while known labels return their mapped glyph string. -/
theorem category_text_defaults :
    (∀ s : String, s ∉ STAGING_TEXT_REPRESENTATION.map Prod.fst →
      get_staging_text s = "-----") ∧
    (∀ p : String, p ∉ PRIORITY_TEXT_REPRESENTATION.map Prod.fst →
      get_priority_text p = "unknown") ∧
    (∀ kv ∈ STAGING_TEXT_REPRESENTATION, get_staging_text kv.1 = kv.2) ∧
    (∀ kv ∈ PRIORITY_TEXT_REPRESENTATION, get_priority_text kv.1 = kv.2) := by
  refine ⟨?_, ?_, by decide, by decide⟩
  · intro s h
    unfold get_staging_text dictGet
    rw [lookup_eq_none_of_not_mem_keys _ _ h]
  · intro p h
    unfold get_priority_text dictGet
    rw [lookup_eq_none_of_not_mem_keys _ _ h]

/-- Witness for C2: the unmapped priority "P9" yields "unknown", an unmapped
staging label yields "-----", and "Triage" yields its glyph. -/
theorem category_text_defaults_witness :
    get_priority_text "P9" = "unknown" ∧
    get_staging_text "Retired" = "-----" ∧
    get_staging_text "Triage" = "▰▱▱▱▱" :=
  ⟨category_text_defaults.2.1 "P9" (by decide),
   category_text_defaults.1 "Retired" (by decide),
   category_text_defaults.2.2.1 ("Triage", "▰▱▱▱▱") (by decide)⟩

/-- C9: for every input string, `get_staging_text` returns a string of
exactly five characters: each mapped glyph and the "-----" fallback all
have length five. -/
theorem get_staging_text_length (s : String) :
    (get_staging_text s).length = 5 := by
  by_cases h : s ∈ STAGING_TEXT_REPRESENTATION.map Prod.fst
  · simp only [STAGING_TEXT_REPRESENTATION, List.map_cons, List.map_nil,
      List.mem_cons, List.not_mem_nil, or_false] at h
    rcases h with h | h | h | h | h <;> subst h <;> decide
  · unfold get_staging_text dictGet
    rw [lookup_eq_none_of_not_mem_keys _ _ h]
    decide

/-! ## graph_utils.py: add_jitter -/

/-- NaN-propagating addition: a pandas float cell is `none` when it holds
NaN, and NaN plus anything is NaN. -/
def nanAdd : Option ℚ → ℚ → Option ℚ
  | none, _ => none
  | some v, x => some (v + x)

/-- Elementwise `series + (rand - 0.5) * jitter_amount`, threading the
position into the random stream (modelling `np.random.rand(len(series))`,
one independent draw per element). -/
def add_jitterAux (rand : Nat → ℚ) (jitter_amount : ℚ) :
    Nat → List (Option ℚ) → List (Option ℚ)
  | _, [] => []
  | i, v :: rest =>
    nanAdd v ((rand i - 1 / 2) * jitter_amount) ::
      add_jitterAux rand jitter_amount (i + 1) rest

/-- `add_jitter(series, jitter_amount=0.1)` from graph_utils.py, with the
numpy random source made explicit as a stream of draws in [0, 1). -/
def add_jitter (series : List (Option ℚ)) (rand : Nat → ℚ)
    (jitter_amount : ℚ) : List (Option ℚ) :=
  add_jitterAux rand jitter_amount 0 series

theorem add_jitterAux_getElem (rand : Nat → ℚ) (m : ℚ) (l : List (Option ℚ))
    (k i : Nat) :
    (add_jitterAux rand m k l)[i]? =
      (l[i]?).map fun v => nanAdd v ((rand (k + i) - 1 / 2) * m) := by
  induction l generalizing k i with
  | nil => simp [add_jitterAux]
  | cons v rest ih =>
    cases i with
    | zero => simp [add_jitterAux]
    | succ n =>
      simp only [add_jitterAux, List.getElem?_cons_succ]
      rw [ih (k + 1) n]
      have : k + 1 + n = k + (n + 1) := by omega
      rw [this]

theorem add_jitterAux_zero (rand : Nat → ℚ) (k : Nat) (l : List (Option ℚ)) :
    add_jitterAux rand 0 k l = l := by
  induction l generalizing k with
  | nil => rfl
  | cons v rest ih =>
    have hv : nanAdd v 0 = v := by
      cases v <;> simp [nanAdd]
    simp [add_jitterAux, hv, ih]

/-- C3: with every random draw in [0, 1) and jitter magnitude m ≥ 0, each
numeric element v of the input series is jittered to a value inside the
closed interval [v - m/2, v + m/2]; with m = 0 the output equals the input
exactly. -/
theorem add_jitter_bounds (series : List (Option ℚ)) (rand : Nat → ℚ)
    (m : ℚ) (hr : ∀ i, 0 ≤ rand i ∧ rand i < 1) (hm : 0 ≤ m) :
    (∀ (i : Nat) (v : ℚ), series[i]? = some (some v) →
      ∃ w, (add_jitter series rand m)[i]? = some (some w) ∧
        v - m / 2 ≤ w ∧ w ≤ v + m / 2) ∧
    (m = 0 → add_jitter series rand m = series) := by
  constructor
  · intro i v hv
    refine ⟨v + (rand (0 + i) - 1 / 2) * m, ?_, ?_, ?_⟩
    · rw [add_jitter, add_jitterAux_getElem, hv]
      rfl
    · have h1 : 0 ≤ rand (0 + i) := (hr (0 + i)).1
      nlinarith
    · have h2 : rand (0 + i) < 1 := (hr (0 + i)).2
      nlinarith
  · intro h
    subst h
    exact add_jitterAux_zero rand 0 series

/-- Witness for C3 at series [some 3], constant draw 1/4, magnitude 1/10. -/
theorem add_jitter_bounds_witness :
    (∃ w, (add_jitter [some (3 : ℚ)] (fun _ => 1 / 4) (1 / 10))[0]? =
        some (some w) ∧ 3 - (1 / 10 : ℚ) / 2 ≤ w ∧ w ≤ 3 + (1 / 10 : ℚ) / 2) ∧
    add_jitter [some (3 : ℚ)] (fun _ => 1 / 4) 0 = [some (3 : ℚ)] :=
  ⟨(add_jitter_bounds [some 3] (fun _ => 1 / 4) (1 / 10)
      (fun _ => by norm_num) (by norm_num)).1 0 3 rfl,
   (add_jitter_bounds [some 3] (fun _ => 1 / 4) 0
      (fun _ => by norm_num) le_rfl).2 rfl⟩

/-! ## graph_utils.py: load_and_prepare_data and create_scatter_plot -/

/-- One row of PROJECT.csv, restricted to the fields graph_utils.py reads:
the columns 'Estimated Effort', 'Estimated Impact' and 'Priority'. -/
structure Record where
  estimatedEffort : String
  estimatedImpact : String
  priority : String
deriving DecidableEq

/-- The effort_mapping dictionary inside load_and_prepare_data. -/
def effort_mapping : List (String × ℚ) :=
  [("Hours", 1), ("Days", 2), ("Weeks", 3), ("Months", 4), ("Quarters", 5)]

/-- The impact_mapping dictionary inside load_and_prepare_data. -/
def impact_mapping : List (String × ℚ) :=
  [("Very Low", 1), ("Low", 2), ("Medium", 3), ("High", 4), ("Very High", 5)]

/-- The priority_color_mapping dictionary inside load_and_prepare_data. -/
def priority_color_mapping : List (String × String) :=
  [("P1 🔥", "red"), ("P2", "orange"), ("P3", "green"), ("P4", "blue")]

/-- A row after load_and_prepare_data added the mapped columns.  A `none`
value models the NaN that pandas `Series.map` produces when the label is
not a key of the mapping dictionary. -/
structure PreparedRecord where
  priority : String
  numericalEffort : Option ℚ
  numericalImpact : Option ℚ
  color : Option String
deriving DecidableEq

/-- Per-row effect of load_and_prepare_data: `Series.map` yields the mapped
value, or NaN (`none`) for an unmapped label. -/
def prepareRecord (r : Record) : PreparedRecord :=
  { priority := r.priority,
    numericalEffort := effort_mapping.lookup r.estimatedEffort,
    numericalImpact := impact_mapping.lookup r.estimatedImpact,
    color := priority_color_mapping.lookup r.priority }

/-- load_and_prepare_data: maps every row and returns the dataframe
together with the fixed priority color mapping. -/
def load_and_prepare_data (rows : List Record) :
    List PreparedRecord × List (String × String) :=
  (rows.map prepareRecord, priority_color_mapping)

/-- One plt.scatter call inside create_scatter_plot: its legend label, its
color, the subset of the dataframe it plots, and the jittered x and y
coordinate lists handed to the rendering surface. -/
structure PlotSeries where
  label : String
  color : String
  records : List PreparedRecord
  xs : List (Option ℚ)
  ys : List (Option ℚ)
deriving DecidableEq

/-- The subset selection `df[df['Priority'] == priority]`. -/
def scatterSubset (df : List PreparedRecord) (priority : String) :
    List PreparedRecord :=
  df.filter fun r => r.priority == priority

/-- create_scatter_plot: one series per entry of the color mapping, in
dictionary order.  `rand` is the shared numpy random source, keyed here by
series label and axis (y axis when the flag is true) since each plt.scatter
call draws fresh jitter for each axis. -/
def create_scatter_plot (df : List PreparedRecord)
    (mapping : List (String × String)) (rand : String → Bool → Nat → ℚ)
    (jitter_amount : ℚ) : List PlotSeries :=
  mapping.map fun kc =>
    { label := kc.1,
      color := kc.2,
      records := scatterSubset df kc.1,
      xs := add_jitter ((scatterSubset df kc.1).map
              (fun r => r.numericalEffort)) (rand kc.1 false) jitter_amount,
      ys := add_jitter ((scatterSubset df kc.1).map
              (fun r => r.numericalImpact)) (rand kc.1 true) jitter_amount }

/-- matplotlib masks non-finite coordinates: a point of a series is drawn
only when both of its coordinates are numeric (non-NaN). -/
def drawnPoints (s : PlotSeries) : List (ℚ × ℚ) :=
  (s.xs.zip s.ys).filterMap fun p =>
    match p with
    | (some x, some y) => some (x, y)
    | _ => none

theorem mem_scatterSubset (df : List PreparedRecord) (k : String)
    (r : PreparedRecord) :
    r ∈ scatterSubset df k ↔ r ∈ df ∧ r.priority = k := by
  simp [scatterSubset, List.mem_filter]

/-- C6: create_scatter_plot produces exactly one series per entry of the
color mapping, in order, labeled with the priority key and colored with the
mapped color; a series holds exactly the records whose priority equals its
key, and a record whose priority is not a key of the mapping appears in no
series. -/
theorem create_scatter_plot_partition (df : List PreparedRecord)
    (mapping : List (String × String)) (rand : String → Bool → Nat → ℚ)
    (m : ℚ) :
    ((create_scatter_plot df mapping rand m).length = mapping.length) ∧
    (∀ (i : Nat) (kc : String × String), mapping[i]? = some kc →
      ∃ s, (create_scatter_plot df mapping rand m)[i]? = some s ∧
        s.label = kc.1 ∧ s.color = kc.2 ∧
        (∀ r, r ∈ s.records ↔ (r ∈ df ∧ r.priority = kc.1))) ∧
    ((mapping.map Prod.fst).Nodup → ∀ k ∈ mapping.map Prod.fst,
      (create_scatter_plot df mapping rand m).countP
        (fun s => s.label == k) = 1) ∧
    (∀ r ∈ df, (∀ kc ∈ mapping, r.priority ≠ kc.1) →
      ∀ s ∈ create_scatter_plot df mapping rand m, r ∉ s.records) := by
  refine ⟨List.length_map _ _, ?_, ?_, ?_⟩
  · intro i kc h
    unfold create_scatter_plot
    rw [List.getElem?_map, h]
    exact ⟨_, rfl, rfl, rfl, fun r => mem_scatterSubset df kc.1 r⟩
  · intro hnd k hk
    unfold create_scatter_plot
    rw [List.countP_map]
    have hcount : (mapping.map Prod.fst).count k = 1 :=
      List.count_eq_one_of_mem hnd hk
    rw [List.count, List.countP_map] at hcount
    exact hcount
  · intro r hr hne s hs hmem
    unfold create_scatter_plot at hs
    obtain ⟨kc, hkc, rfl⟩ := List.mem_map.mp hs
    exact hne kc hkc ((mem_scatterSubset df kc.1 r).mp hmem).2

/-- Witness for C6: on a one-record dataframe, series 1 of the real color
mapping is labeled "P2", colored "orange", and contains the record. -/
theorem create_scatter_plot_partition_witness :
    ∃ s, (create_scatter_plot [⟨"P2", some 2, some 3, some "orange"⟩]
        priority_color_mapping (fun _ _ _ => 0) (1 / 10))[1]? = some s ∧
      s.label = "P2" ∧ s.color = "orange" ∧
      ((⟨"P2", some 2, some 3, some "orange"⟩ : PreparedRecord) ∈ s.records ↔
        ((⟨"P2", some 2, some 3, some "orange"⟩ : PreparedRecord) ∈
            [(⟨"P2", some 2, some 3, some "orange"⟩ : PreparedRecord)] ∧
          ("P2" : String) = "P2")) := by
  obtain ⟨s, h1, h2, h3, h4⟩ :=
    (create_scatter_plot_partition [⟨"P2", some 2, some 3, some "orange"⟩]
      priority_color_mapping (fun _ _ _ => 0) (1 / 10)).2.1 1
      ("P2", "orange") rfl
  exact ⟨s, h1, h2, h3, h4 ⟨"P2", some 2, some 3, some "orange"⟩⟩

/-- C7: a record whose effort (or impact) label is not a key of the
corresponding mapping gets a missing rank (`none`, never any numeric
value), every record still produces an output row (no abort), the missing
rank survives jittering as missing inside any series of the scatter plot,
and only points with both coordinates numeric are drawn. -/
theorem unmapped_rank_absent (r : Record) :
    (effort_mapping.lookup r.estimatedEffort = none →
      (prepareRecord r).numericalEffort = none ∧
      ∀ q : ℚ, (prepareRecord r).numericalEffort ≠ some q) ∧
    (impact_mapping.lookup r.estimatedImpact = none →
      (prepareRecord r).numericalImpact = none ∧
      ∀ q : ℚ, (prepareRecord r).numericalImpact ≠ some q) ∧
    (∀ rows : List Record,
      (load_and_prepare_data rows).1.length = rows.length) ∧
    (∀ (df : List PreparedRecord) (mapping : List (String × String))
      (rand : String → Bool → Nat → ℚ) (m : ℚ),
      ∀ s ∈ create_scatter_plot df mapping rand m,
      ∀ j : Nat, s.records[j]? = some (prepareRecord r) →
        (effort_mapping.lookup r.estimatedEffort = none →
          s.xs[j]? = some none) ∧
        (impact_mapping.lookup r.estimatedImpact = none →
          s.ys[j]? = some none)) ∧
    (∀ s : PlotSeries, ∀ p ∈ drawnPoints s,
      ∃ i : Nat,
        s.xs[i]? = some (some p.1) ∧ s.ys[i]? = some (some p.2)) := by
  refine ⟨?_, ?_, ?_, ?_, ?_⟩
  · intro h
    refine ⟨?_, ?_⟩ <;> simp [prepareRecord, h]
  · intro h
    refine ⟨?_, ?_⟩ <;> simp [prepareRecord, h]
  · intro rows
    exact List.length_map rows prepareRecord
  · intro df mapping rand m s hs j hj
    unfold create_scatter_plot at hs
    obtain ⟨kc, hkc, rfl⟩ := List.mem_map.mp hs
    constructor
    · intro he
      show (add_jitter ((scatterSubset df kc.1).map
        (fun x => x.numericalEffort)) (rand kc.1 false) m)[j]? = some none
      rw [add_jitter, add_jitterAux_getElem, List.getElem?_map]
      simp only at hj
      rw [hj]
      simp [prepareRecord, he, nanAdd]
    · intro hi
      show (add_jitter ((scatterSubset df kc.1).map
        (fun x => x.numericalImpact)) (rand kc.1 true) m)[j]? = some none
      rw [add_jitter, add_jitterAux_getElem, List.getElem?_map]
      simp only at hj
      rw [hj]
      simp [prepareRecord, hi, nanAdd]
  · intro s p hp
    obtain ⟨a, ha, hmatch⟩ := List.mem_filterMap.mp hp
    obtain ⟨i, hi⟩ := List.mem_iff_getElem?.mp ha
    obtain ⟨x, y⟩ := a
    cases x with
    | none => simp at hmatch
    | some xv =>
      cases y with
      | none => simp at hmatch
      | some yv =>
        obtain ⟨hx, hy⟩ := List.getElem?_zip_eq_some.mp hi
        simp only [Option.some.injEq] at hmatch
        refine ⟨i, ?_, ?_⟩
        · rw [hx, ← hmatch]
        · rw [hy, ← hmatch]

/-- Witness for C7: "Unknown" is not an effort key, so the prepared record
carries a missing numerical effort. -/
theorem unmapped_rank_absent_witness :
    (prepareRecord ⟨"Unknown", "High", "P2"⟩).numericalEffort = none :=
  ((unmapped_rank_absent ⟨"Unknown", "High", "P2"⟩).1 (by decide)).1

/-- C10: the keys of the priority color mapping are exactly
["P1 🔥", "P2", "P3", "P4"]; "P1" and "P5" are keys of
PRIORITY_TEXT_REPRESENTATION, yet a record whose priority is the plain
label "P1" or "P5" lands in no series of the scatter plot built from the
color mapping. -/
theorem priority_color_keys_drop :
    priority_color_mapping.map Prod.fst = ["P1 🔥", "P2", "P3", "P4"] ∧
    "P1" ∈ PRIORITY_TEXT_REPRESENTATION.map Prod.fst ∧
    "P5" ∈ PRIORITY_TEXT_REPRESENTATION.map Prod.fst ∧
    (∀ (df : List PreparedRecord) (rand : String → Bool → Nat → ℚ) (m : ℚ),
      ∀ r ∈ df, (r.priority = "P1" ∨ r.priority = "P5") →
      ∀ s ∈ create_scatter_plot df priority_color_mapping rand m,
        r ∉ s.records) := by
  refine ⟨by decide, by decide, by decide, ?_⟩
  intro df rand m r hr hp s hs hmem
  unfold create_scatter_plot at hs
  obtain ⟨kc, hkc, rfl⟩ := List.mem_map.mp hs
  have hpr : r.priority = kc.1 := ((mem_scatterSubset df kc.1 r).mp hmem).2
  have hkeys : kc.1 = "P1 🔥" ∨ kc.1 = "P2" ∨ kc.1 = "P3" ∨ kc.1 = "P4" := by
    simp only [priority_color_mapping, List.mem_cons, List.not_mem_nil,
      or_false] at hkc
    rcases hkc with h | h | h | h <;> rw [h] <;> simp
  rcases hp with h1 | h1 <;> rw [h1] at hpr <;>
    rcases hkeys with h2 | h2 | h2 | h2 <;> rw [h2] at hpr <;>
    exact absurd hpr (by decide)

/-- Witness for C10: a one-record dataframe with plain priority "P1" gives
a first series not containing the record. -/
theorem priority_color_keys_drop_witness :
    ∃ s, (create_scatter_plot [⟨"P1", some 1, some 1, none⟩]
        priority_color_mapping (fun _ _ _ => 0) 0)[0]? = some s ∧
      (⟨"P1", some 1, some 1, none⟩ : PreparedRecord) ∉ s.records := by
  have h := priority_color_keys_drop.2.2.2 [⟨"P1", some 1, some 1, none⟩]
    (fun _ _ _ => 0) 0 ⟨"P1", some 1, some 1, none⟩
    (List.mem_singleton.mpr rfl) (Or.inl rfl)
  cases hs : (create_scatter_plot [⟨"P1", some 1, some 1, none⟩]
      priority_color_mapping (fun _ _ _ => 0) 0)[0]? with
  | none => exact absurd hs (by decide)
  | some s => exact ⟨s, rfl, h s (List.getElem?_mem hs)⟩

/-! ## graph_utils.py: pivot-based bar charts -/

/-- One row of the resolved-items dataframe fed to the bar chart plotters:
the columns 'YearMonth', 'Closed by' and 'ResolvedCount'. -/
structure ResolvedRow where
  yearMonth : String
  closedBy : String
  resolvedCount : ℚ
deriving DecidableEq

/-- Sorted unique axis labels, as pandas pivot produces them. -/
def sortedKeys (l : List String) : List String :=
  List.insertionSort strLeP l.dedup

/-- True when two list entries coincide; on the (index, columns) pairs of
a dataframe this is exactly the condition under which pandas
DataFrame.pivot raises ValueError. -/
def hasDupPair : List (String × String) → Bool
  | [] => false
  | p :: rest => rest.contains p || hasDupPair rest

/-- The dense grid produced by pivot(...).fillna(0): axis key lists plus a
total cell function (fillna makes every cell numeric). -/
structure PivotGrid where
  rowKeys : List String
  colKeys : List String
  cell : String → String → ℚ

/-- pandas `df.pivot(index=rowOf, columns=colOf, values='ResolvedCount')`
followed by `.fillna(0)`: `none` models the ValueError pandas raises on a
duplicate (index, columns) pair; otherwise the grid has sorted unique axis
keys and each cell holds the unique matching row's count, or 0 (fillna)
when no row matches. -/
def pandasPivot (rowOf colOf : ResolvedRow → String)
    (rows : List ResolvedRow) : Option PivotGrid :=
  if hasDupPair (rows.map fun r => (rowOf r, colOf r)) then none
  else some
    { rowKeys := sortedKeys (rows.map rowOf),
      colKeys := sortedKeys (rows.map colOf),
      cell := fun i c =>
        match rows.find? (fun r => rowOf r == i && colOf r == c) with
        | some r => r.resolvedCount
        | none => 0 }

/-- The pivot step of plot_resolved_items_per_month and of
plot_grouped_resolved_items_per_month: index YearMonth, columns Closed by. -/
def pivot_resolved_items_per_month (rows : List ResolvedRow) :
    Option PivotGrid :=
  pandasPivot (fun r => r.yearMonth) (fun r => r.closedBy) rows

/-- The pivot step of plot_engineer_grouped_resolved_items: index Closed
by, columns YearMonth. -/
def pivot_engineer_grouped_resolved_items (rows : List ResolvedRow) :
    Option PivotGrid :=
  pandasPivot (fun r => r.closedBy) (fun r => r.yearMonth) rows

/-- Total of all grid cells. -/
def gridSum (g : PivotGrid) : ℚ :=
  (g.rowKeys.map fun i => (g.colKeys.map fun c => g.cell i c).sum).sum

theorem hasDupPair_eq_false_iff (l : List (String × String)) :
    hasDupPair l = false ↔ l.Nodup := by
  induction l with
  | nil => simp [hasDupPair]
  | cons p rest ih =>
    simp [hasDupPair, List.nodup_cons, ih, List.elem_iff]

theorem sortedKeys_nodup (l : List String) : (sortedKeys l).Nodup :=
  (List.perm_insertionSort strLeP l.dedup).nodup_iff.mpr (List.nodup_dedup l)

theorem mem_sortedKeys (l : List String) (a : String) :
    a ∈ sortedKeys l ↔ a ∈ l :=
  ((List.perm_insertionSort strLeP l.dedup).mem_iff).trans (List.mem_dedup)

theorem sortedKeys_sorted (l : List String) :
    List.Sorted strLeP (sortedKeys l) :=
  List.sorted_insertionSort strLeP l.dedup

theorem sortedKeys_eq_of_toFinset_eq (l1 l2 : List String)
    (h : (sortedKeys l1).toFinset = (sortedKeys l2).toFinset) :
    sortedKeys l1 = sortedKeys l2 :=
  List.eq_of_perm_of_sorted
    (List.perm_of_nodup_nodup_toFinset_eq (sortedKeys_nodup l1)
      (sortedKeys_nodup l2) h)
    (sortedKeys_sorted l1) (sortedKeys_sorted l2)

theorem pandasPivot_eq_some {rowOf colOf : ResolvedRow → String}
    {rows : List ResolvedRow} {g : PivotGrid}
    (h : pandasPivot rowOf colOf rows = some g) :
    g.rowKeys = sortedKeys (rows.map rowOf) ∧
    g.colKeys = sortedKeys (rows.map colOf) ∧
    ∀ i c : String, g.cell i c =
      match rows.find? (fun r => rowOf r == i && colOf r == c) with
      | some r => r.resolvedCount
      | none => 0 := by
  unfold pandasPivot at h
  split at h
  · exact absurd h (by simp)
  · injection h with h
    subst h
    exact ⟨rfl, rfl, fun i c => rfl⟩

theorem pandasPivot_eq_none {rowOf colOf : ResolvedRow → String}
    {rows : List ResolvedRow}
    (h : ¬ (rows.map fun r => (rowOf r, colOf r)).Nodup) :
    pandasPivot rowOf colOf rows = none := by
  have hd : hasDupPair (rows.map fun r => (rowOf r, colOf r)) = true := by
    cases hc : hasDupPair (rows.map fun r => (rowOf r, colOf r)) with
    | false => exact absurd ((hasDupPair_eq_false_iff _).mp hc) h
    | true => rfl
  unfold pandasPivot
  rw [if_pos hd]

/-- C4 (amended): provided no two rows share a (YearMonth, Closed by) key
— with a duplicate pandas pivot raises and no grid results — the grid has
an entry for every observed entity and time-bucket key, and a cell whose
pair no input row carries equals zero (fillna). -/
theorem pivot_grid_density (rows : List ResolvedRow) (g : PivotGrid)
    (h : pivot_resolved_items_per_month rows = some g) :
    (∀ r ∈ rows, r.yearMonth ∈ g.rowKeys ∧ r.closedBy ∈ g.colKeys) ∧
    (∀ ym cb : String,
      (∀ r ∈ rows, ¬(r.yearMonth = ym ∧ r.closedBy = cb)) →
      g.cell ym cb = 0) := by
  obtain ⟨hrow, hcol, hcell⟩ := pandasPivot_eq_some h
  constructor
  · intro r hr
    rw [hrow, hcol]
    exact ⟨(mem_sortedKeys _ _).mpr (List.mem_map_of_mem _ hr),
      (mem_sortedKeys _ _).mpr (List.mem_map_of_mem _ hr)⟩
  · intro ym cb hnone
    rw [hcell]
    have hfind : rows.find?
        (fun r => r.yearMonth == ym && r.closedBy == cb) = none := by
      rw [List.find?_eq_none]
      intro r hr
      simp only [Bool.and_eq_true, beq_iff_eq]
      intro hcon
      exact hnone r hr hcon
    rw [hfind]

/-- Witness for C4 on a one-row input: the observed keys are present and
an unobserved combination holds zero. -/
theorem pivot_grid_density_witness :
    ∃ g, pivot_resolved_items_per_month [⟨"Jan", "A", 3⟩] = some g ∧
      ("Jan" ∈ g.rowKeys ∧ "A" ∈ g.colKeys) ∧ g.cell "Jan" "B" = 0 := by
  obtain ⟨h1, h2⟩ := pivot_grid_density [⟨"Jan", "A", 3⟩] _ rfl
  exact ⟨_, rfl, h1 ⟨"Jan", "A", 3⟩ (List.mem_singleton.mpr rfl),
    h2 "Jan" "B" (by decide)⟩

/-- Counterexample for C4 as stated: an input with a duplicated
(entity, time-bucket) key produces no pivot grid at all (pandas raises
ValueError), so no cell is defined for its observed keys. -/
theorem pivot_grid_density_counterexample :
    pivot_resolved_items_per_month
      [⟨"Jan", "A", 3⟩, ⟨"Jan", "A", 2⟩] = none := by
  rfl

/-- C1 (amended): when more than one row shares the same (entity,
time-bucket) key the pivot fails (pandas raises ValueError) — it neither
sums nor overwrites — and this holds for both bar chart orientations; on
the scenario input with the duplicate pair already combined,
[("A","Jan",5), ("B","Feb",5)], the grid has rows {Jan,Feb}, columns
{A,B}, and cells A/Jan=5, A/Feb=0, B/Jan=0, B/Feb=5. -/
theorem pivot_duplicate_policy :
    (∀ rows : List ResolvedRow,
      ¬ (rows.map fun r => (r.yearMonth, r.closedBy)).Nodup →
      pivot_resolved_items_per_month rows = none) ∧
    (∀ rows : List ResolvedRow,
      ¬ (rows.map fun r => (r.closedBy, r.yearMonth)).Nodup →
      pivot_engineer_grouped_resolved_items rows = none) ∧
    ((pivot_resolved_items_per_month
        [⟨"Jan", "A", 5⟩, ⟨"Feb", "B", 5⟩]).map (fun g => g.rowKeys) =
      some ["Feb", "Jan"] ∧
     (pivot_resolved_items_per_month
        [⟨"Jan", "A", 5⟩, ⟨"Feb", "B", 5⟩]).map (fun g => g.colKeys) =
      some ["A", "B"] ∧
     (pivot_resolved_items_per_month
        [⟨"Jan", "A", 5⟩, ⟨"Feb", "B", 5⟩]).map (fun g => g.cell "Jan" "A") =
      some 5 ∧
     (pivot_resolved_items_per_month
        [⟨"Jan", "A", 5⟩, ⟨"Feb", "B", 5⟩]).map (fun g => g.cell "Feb" "A") =
      some 0 ∧
     (pivot_resolved_items_per_month
        [⟨"Jan", "A", 5⟩, ⟨"Feb", "B", 5⟩]).map (fun g => g.cell "Jan" "B") =
      some 0 ∧
     (pivot_resolved_items_per_month
        [⟨"Jan", "A", 5⟩, ⟨"Feb", "B", 5⟩]).map (fun g => g.cell "Feb" "B") =
      some 5) := by
  refine ⟨fun rows h => pandasPivot_eq_none h,
    fun rows h => pandasPivot_eq_none h, ?_, ?_, ?_, ?_, ?_, ?_⟩ <;> rfl

/-- Witness for C1: a duplicated (Mar, C) key makes the pivot fail. -/
theorem pivot_duplicate_policy_witness :
    pivot_resolved_items_per_month
      [⟨"Mar", "C", 1⟩, ⟨"Mar", "C", 4⟩] = none :=
  pivot_duplicate_policy.1 _ (by decide)

/-- Counterexample for C1 as stated: on the spec scenario triples
[("A","Jan",3), ("A","Jan",2), ("B","Feb",5)] the code produces no grid at
all (pandas pivot raises on the duplicated ("A","Jan") key) instead of the
claimed summed grid with A/Jan=5. -/
theorem pivot_duplicate_policy_counterexample :
    pivot_resolved_items_per_month
      [⟨"Jan", "A", 3⟩, ⟨"Jan", "A", 2⟩, ⟨"Feb", "B", 5⟩] = none := by
  rfl

theorem sum_map_sum_swap {α β : Type} (l : List α) (m : List β)
    (f : α → β → ℚ) :
    (l.map fun a => (m.map fun b => f a b).sum).sum =
      (m.map fun b => (l.map fun a => f a b).sum).sum := by
  induction l with
  | nil => simp
  | cons a t ih =>
    simp only [List.map_cons, List.sum_cons]
    rw [ih, List.sum_map_add]

theorem sum_ind_eq (l : List String) (hl : l.Nodup) (k : String)
    (hk : k ∈ l) (c : ℚ) :
    (l.map fun x => if k = x then c else 0).sum = c := by
  induction l with
  | nil => cases hk
  | cons a t ih =>
    obtain ⟨ha, ht⟩ := List.nodup_cons.mp hl
    simp only [List.map_cons, List.sum_cons]
    by_cases h : k = a
    · rw [if_pos h]
      have hz : (t.map fun x => if k = x then c else 0).sum = 0 := by
        apply List.sum_eq_zero
        intro y hy
        obtain ⟨x, hx, rfl⟩ := List.mem_map.mp hy
        rw [if_neg]
        intro he
        rw [h] at he
        exact ha (he ▸ hx)
      rw [hz, add_zero]
    · rw [if_neg h, zero_add]
      exact ih ht ((List.mem_cons.mp hk).resolve_left h)

theorem cell_eq_sum_ind (fR fC : ResolvedRow → String) :
    ∀ rows : List ResolvedRow,
      (rows.map fun r => (fR r, fC r)).Nodup → ∀ a b : String,
      (match rows.find? (fun r => fR r == a && fC r == b) with
       | some r => r.resolvedCount
       | none => 0) =
      (rows.map fun r =>
        if fR r = a ∧ fC r = b then r.resolvedCount else 0).sum := by
  intro rows
  induction rows with
  | nil => intro _ a b; rfl
  | cons r0 rest ih =>
    intro hnd a b
    rw [List.map_cons] at hnd
    obtain ⟨hhead, htail⟩ := List.nodup_cons.mp hnd
    by_cases hc : (fR r0 == a && fC r0 == b) = true
    · have hfind : List.find? (fun r => fR r == a && fC r == b)
          (r0 :: rest) = some r0 := List.find?_cons_of_pos rest hc
      rw [hfind]
      simp only [Bool.and_eq_true, beq_iff_eq] at hc
      simp only [List.map_cons, List.sum_cons, if_pos hc]
      have hz : (rest.map fun r =>
          if fR r = a ∧ fC r = b then r.resolvedCount else 0).sum = 0 := by
        apply List.sum_eq_zero
        intro y hy
        obtain ⟨r, hr, rfl⟩ := List.mem_map.mp hy
        rw [if_neg]
        rintro ⟨h1, h2⟩
        have hmem : (fR r0, fC r0) ∈ rest.map fun r => (fR r, fC r) :=
          List.mem_map.mpr ⟨r, hr, by rw [h1, h2, hc.1, hc.2]⟩
        exact hhead hmem
      rw [hz, add_zero]
    · have hfind : List.find? (fun r => fR r == a && fC r == b)
          (r0 :: rest) = List.find? (fun r => fR r == a && fC r == b) rest :=
        List.find?_cons_of_neg rest hc
      rw [hfind]
      simp only [Bool.and_eq_true, beq_iff_eq] at hc
      simp only [List.map_cons, List.sum_cons, if_neg hc, zero_add]
      exact ih htail a b

theorem triple_collapse (rows : List ResolvedRow) (R C : List String)
    (hR : R.Nodup) (hC : C.Nodup) (fR fC : ResolvedRow → String)
    (hfR : ∀ r ∈ rows, fR r ∈ R) (hfC : ∀ r ∈ rows, fC r ∈ C) :
    (R.map fun i => (C.map fun c => (rows.map fun r =>
        if fR r = i ∧ fC r = c then r.resolvedCount else 0).sum).sum).sum =
      (rows.map fun r => r.resolvedCount).sum := by
  have h1 : ∀ i : String, (C.map fun c => (rows.map fun r =>
      if fR r = i ∧ fC r = c then r.resolvedCount else 0).sum).sum =
      (rows.map fun r => (C.map fun c =>
        if fR r = i ∧ fC r = c then r.resolvedCount else 0).sum).sum :=
    fun i => sum_map_sum_swap C rows _
  simp only [h1]
  rw [sum_map_sum_swap R rows _]
  have hrow : ∀ r ∈ rows, (R.map fun i => (C.map fun c =>
      if fR r = i ∧ fC r = c then r.resolvedCount else 0).sum).sum =
      r.resolvedCount := by
    intro r hr
    have hin : ∀ i ∈ R, (C.map fun c =>
        if fR r = i ∧ fC r = c then r.resolvedCount else 0).sum =
        if fR r = i then r.resolvedCount else 0 := by
      intro i _
      by_cases hfi : fR r = i
      · rw [if_pos hfi]
        have hsame : ∀ c : String,
            (if fR r = i ∧ fC r = c then r.resolvedCount else 0) =
            (if fC r = c then r.resolvedCount else 0) := by
          intro c
          by_cases hgc : fC r = c
          · rw [if_pos ⟨hfi, hgc⟩, if_pos hgc]
          · rw [if_neg (fun hcon => hgc hcon.2), if_neg hgc]
        simp only [hsame]
        exact sum_ind_eq C hC (fC r) (hfC r hr) r.resolvedCount
      · rw [if_neg hfi]
        apply List.sum_eq_zero
        intro y hy
        obtain ⟨c, hcmem, rfl⟩ := List.mem_map.mp hy
        exact if_neg (fun hcon => hfi hcon.1)
    rw [List.map_congr_left hin]
    exact sum_ind_eq R hR (fR r) (hfR r hr) r.resolvedCount
  rw [List.map_congr_left hrow]

/-- C5: when no two rows share a (YearMonth, Closed by) key, the pivot of
plot_resolved_items_per_month succeeds and the sum of all grid cells
equals the sum of the input ResolvedCount values. -/
theorem pivot_sum_preserved (rows : List ResolvedRow)
    (hnd : (rows.map fun r => (r.yearMonth, r.closedBy)).Nodup) :
    ∃ g, pivot_resolved_items_per_month rows = some g ∧
      gridSum g = (rows.map fun r => r.resolvedCount).sum := by
  have hd : hasDupPair (rows.map fun r => (r.yearMonth, r.closedBy)) =
      false := (hasDupPair_eq_false_iff _).mpr hnd
  have hg : pivot_resolved_items_per_month rows = some
      { rowKeys := sortedKeys (rows.map fun r => r.yearMonth),
        colKeys := sortedKeys (rows.map fun r => r.closedBy),
        cell := fun i c =>
          match rows.find?
              (fun r => r.yearMonth == i && r.closedBy == c) with
          | some r => r.resolvedCount
          | none => 0 } := by
    unfold pivot_resolved_items_per_month pandasPivot
    rw [if_neg]
    simp [hd]
  refine ⟨_, hg, ?_⟩
  unfold gridSum
  simp only
  have hcell := cell_eq_sum_ind (fun r => r.yearMonth)
    (fun r => r.closedBy) rows hnd
  simp only [hcell]
  exact triple_collapse rows _ _ (sortedKeys_nodup _) (sortedKeys_nodup _)
    _ _ (fun r hr => (mem_sortedKeys _ _).mpr (List.mem_map_of_mem _ hr))
    (fun r hr => (mem_sortedKeys _ _).mpr (List.mem_map_of_mem _ hr))

/-- Witness for C5: on two rows with distinct keys the grid total equals
the input total. -/
theorem pivot_sum_preserved_witness :
    ∃ g, pivot_resolved_items_per_month
        [⟨"Jan", "A", 3⟩, ⟨"Feb", "B", 5⟩] = some g ∧
      gridSum g = (([⟨"Jan", "A", 3⟩, ⟨"Feb", "B", 5⟩] :
        List ResolvedRow).map fun r => r.resolvedCount).sum :=
  pivot_sum_preserved [⟨"Jan", "A", 3⟩, ⟨"Feb", "B", 5⟩] (by decide)

/-! ## Bar chart colors: pandas plot with cmap tab20 -/

/-- Number of entries of the tab20 ListedColormap. -/
def tab20Size : Nat := 20

/-- Palette entry selected by colormap sample point x in [0, 1]:
a matplotlib ListedColormap with 20 entries maps x to entry
floor(x * 20), with x = 1 clamped to the last entry. -/
def cmapIndex (x : ℚ) : Nat :=
  if 1 ≤ x then tab20Size - 1 else Int.toNat ⌊20 * x⌋

/-- np.linspace(0, 1, n): n evenly spaced sample points, both endpoints
included (the empty list for n = 0, just the left endpoint for n = 1). -/
def linspace01 : Nat → List ℚ
  | 0 => []
  | 1 => [0]
  | Nat.succ (Nat.succ n) =>
    (List.range (n + 2)).map fun k => (k : ℚ) / (n + 1)

/-- Palette entries chosen by pandas `plot(..., cmap='tab20')` for n data
columns: the colormap sampled at n evenly spaced points. -/
def barColorIndices (n : Nat) : List Nat :=
  (linspace01 n).map cmapIndex

/-- The column-key to palette-entry assignment of the stacked and grouped
bar renderers: pivot columns in their sorted order, paired with the
sampled palette entries. -/
def keyColorAssignment (g : PivotGrid) : List (String × Nat) :=
  g.colKeys.zip (barColorIndices g.colKeys.length)

theorem barColorIndices_lt (n : Nat) :
    ∀ c ∈ barColorIndices n, c < tab20Size := by
  intro c hc
  obtain ⟨x, hx, rfl⟩ := List.mem_map.mp hc
  unfold cmapIndex
  split
  · decide
  · rename_i hlt
    push_neg at hlt
    rw [Int.toNat_lt' (by decide : tab20Size ≠ 0)]
    unfold tab20Size
    rw [Int.floor_lt]
    push_cast
    linarith

/-- C8 (amended): the key-to-color assignment of the bar renderer is a
deterministic function of the column-key set alone: two pivoted inputs
with the same set of column keys, in any order, get the same assignment,
and every assigned entry comes from the fixed 20-entry tab20 palette.
(With more keys than palette entries the evenly spaced sampling repeats
neighbouring entries — the last key always receives the last entry — it
does not cycle back to the first; see the counterexample.) -/
theorem bar_color_stability (rows1 rows2 : List ResolvedRow)
    (g1 g2 : PivotGrid)
    (h1 : pivot_resolved_items_per_month rows1 = some g1)
    (h2 : pivot_resolved_items_per_month rows2 = some g2)
    (hset : g1.colKeys.toFinset = g2.colKeys.toFinset) :
    keyColorAssignment g1 = keyColorAssignment g2 ∧
    ∀ kc ∈ keyColorAssignment g1, kc.2 < tab20Size := by
  have hc1 : g1.colKeys = sortedKeys (rows1.map fun r => r.closedBy) :=
    (pandasPivot_eq_some h1).2.1
  have hc2 : g2.colKeys = sortedKeys (rows2.map fun r => r.closedBy) :=
    (pandasPivot_eq_some h2).2.1
  have hkeys : g1.colKeys = g2.colKeys := by
    rw [hc1, hc2]
    apply sortedKeys_eq_of_toFinset_eq
    rw [← hc1, ← hc2]
    exact hset
  constructor
  · unfold keyColorAssignment
    rw [hkeys]
  · intro kc hkc
    exact barColorIndices_lt _ kc.2 (List.of_mem_zip hkc).2

/-- Witness for C8: two inputs listing engineers A and B in different
orders and different months get identical color assignments. -/
theorem bar_color_stability_witness :
    ∃ g1 g2, pivot_resolved_items_per_month
        [⟨"Jan", "B", 1⟩, ⟨"Jan", "A", 2⟩] = some g1 ∧
      pivot_resolved_items_per_month
        [⟨"Feb", "A", 7⟩, ⟨"Mar", "B", 1⟩] = some g2 ∧
      keyColorAssignment g1 = keyColorAssignment g2 := by
  obtain ⟨heq, hpal⟩ := bar_color_stability
    [⟨"Jan", "B", 1⟩, ⟨"Jan", "A", 2⟩] [⟨"Feb", "A", 7⟩, ⟨"Mar", "B", 1⟩]
    _ _ rfl rfl (by decide)
  exact ⟨_, _, rfl, rfl, heq⟩

/-- Counterexample for C8 as stated: with 21 column keys the palette does
not cycle.  The 21st sorted key "E21" receives palette entry 19 (the last
tab20 entry, repeated from its neighbour), whereas cycling through the
20-entry palette would give it entry 20 mod 20 = 0. -/
theorem bar_color_cycling_counterexample :
    (pivot_resolved_items_per_month
        [⟨"Jan", "E01", 1⟩, ⟨"Jan", "E02", 1⟩, ⟨"Jan", "E03", 1⟩,
         ⟨"Jan", "E04", 1⟩, ⟨"Jan", "E05", 1⟩, ⟨"Jan", "E06", 1⟩,
         ⟨"Jan", "E07", 1⟩, ⟨"Jan", "E08", 1⟩, ⟨"Jan", "E09", 1⟩,
         ⟨"Jan", "E10", 1⟩, ⟨"Jan", "E11", 1⟩, ⟨"Jan", "E12", 1⟩,
         ⟨"Jan", "E13", 1⟩, ⟨"Jan", "E14", 1⟩, ⟨"Jan", "E15", 1⟩,
         ⟨"Jan", "E16", 1⟩, ⟨"Jan", "E17", 1⟩, ⟨"Jan", "E18", 1⟩,
         ⟨"Jan", "E19", 1⟩, ⟨"Jan", "E20", 1⟩, ⟨"Jan", "E21", 1⟩]).map
        (fun g => (keyColorAssignment g).getLast?) =
      some (some ("E21", 19)) ∧
    (19 : Nat) ≠ 20 % tab20Size := by
  have hcm : cmapIndex (((20 : ℕ) : ℚ) / (((19 : ℕ) : ℚ) + 1)) = 19 := by
    unfold cmapIndex
    rw [if_pos (by norm_num)]
    decide
  constructor
  · have hassign : (pivot_resolved_items_per_month
        [⟨"Jan", "E01", 1⟩, ⟨"Jan", "E02", 1⟩, ⟨"Jan", "E03", 1⟩,
         ⟨"Jan", "E04", 1⟩, ⟨"Jan", "E05", 1⟩, ⟨"Jan", "E06", 1⟩,
         ⟨"Jan", "E07", 1⟩, ⟨"Jan", "E08", 1⟩, ⟨"Jan", "E09", 1⟩,
         ⟨"Jan", "E10", 1⟩, ⟨"Jan", "E11", 1⟩, ⟨"Jan", "E12", 1⟩,
         ⟨"Jan", "E13", 1⟩, ⟨"Jan", "E14", 1⟩, ⟨"Jan", "E15", 1⟩,
         ⟨"Jan", "E16", 1⟩, ⟨"Jan", "E17", 1⟩, ⟨"Jan", "E18", 1⟩,
         ⟨"Jan", "E19", 1⟩, ⟨"Jan", "E20", 1⟩, ⟨"Jan", "E21", 1⟩]).map
        (fun g => (keyColorAssignment g).getLast?) =
        some (some ("E21",
          cmapIndex (((20 : ℕ) : ℚ) / (((19 : ℕ) : ℚ) + 1)))) := by rfl
    rw [hassign, hcm]
  · decide

end ProjectReport
